import Mathlib

/-!
Verification of the `musicpal` repository against its specification.

The repository as provided consists of a single source file, `setup.py`,
which reads `README.md` and then calls `setuptools.setup` with a fixed
set of keyword arguments.  We embed the keyword-argument record and the
script's control flow (read the file, then register the metadata) and
prove the specified properties of the declared metadata.
-/

namespace Musicpal

/-- The keyword arguments passed to `setuptools.setup` in `setup.py`.
`version` is `Option String` because `setup.py` passes no `version`
keyword (the version comes from `setuptools_scm`); absence is `none`. -/
structure SetupArgs where
  name : String
  author : String
  author_email : String
  license : String
  description : String
  long_description : String
  long_description_content_type : String
  url : String
  scripts : List String
  use_scm_version_local_scheme : String
  setup_requires : List String
  install_requires : List String
  classifiers : List String
  python_requires : String
  version : Option String
  deriving Repr, DecidableEq

/-- The `setup(...)` call of `setup.py`, as a function of the
`long_description` value read from `README.md`.  Every other argument is
the literal written in the source. -/
def musicpalSetup (longDescription : String) : SetupArgs :=
  { name := "musicpal"
    author := "Joerg Mechnich"
    author_email := "joerg.mechnich@gmail.com"
    license := "GNU GPLv3"
    description := "Command line interface for remote controlling a Freecom MusicPal"
    long_description := longDescription
    long_description_content_type := "text/markdown"
    url := "https://github.com/jmechnich/musicpal"
    scripts := ["musicpal"]
    use_scm_version_local_scheme := "no-local-version"
    setup_requires := ["setuptools_scm"]
    install_requires := ["beautifulsoup4", "lxml", "requests"]
    classifiers :=
      [ "Programming Language :: Python :: 3",
        "License :: OSI Approved :: GNU General Public License v3 (GPLv3)",
        "Operating System :: POSIX :: Linux" ]
    python_requires := ">=3.8"
    version := none }

/-- The whole `setup.py` script: first `open("README.md")`/`read()` (whose
outcome is the `readResult` argument: `.error e` when opening or reading
raises, `.ok contents` otherwise), then `setup(...)`.  A read failure
propagates before `setup` is ever invoked, so no metadata is registered
on that path. -/
def runSetupScript (readResult : Except String String) : Except String SetupArgs :=
  match readResult with
  | .error e => .error e
  | .ok contents => .ok (musicpalSetup contents)

/-- `leadsWith pat s`: the character list `s` starts with `pat`. -/
def leadsWith : List Char → List Char → Bool
  | [], _ => true
  | _ :: _, [] => false
  | a :: asRest, b :: bs => a == b && leadsWith asRest bs

/-- `occursIn pat s`: `pat` occurs as a contiguous sublist of `s`. -/
def occursIn (pat : List Char) : List Char → Bool
  | [] => leadsWith pat []
  | c :: rest => leadsWith pat (c :: rest) || occursIn pat rest

/-- Whether the substring `pat` occurs somewhere in `s`. -/
def mentions (s pat : String) : Bool :=
  occursIn pat.data s.data

/-- Take the characters before the first dot; the second component is
`some` of the remainder when a dot was found, `none` otherwise. -/
def takeUntilDot : List Char → List Char × Option (List Char)
  | [] => ([], none)
  | c :: cs =>
    if c = '.' then ([], some cs)
    else
      let (pre, rest) := takeUntilDot cs
      (c :: pre, rest)

/-- Parse a non-empty list of decimal digits as a natural number. -/
def parseNatChars : List Char → Nat → Option Nat
  | [], acc => some acc
  | c :: cs, acc =>
    if c.isDigit then parseNatChars cs (acc * 10 + (c.toNat - 48)) else none

/-- Parse a version specifier of the form `>=MAJOR.MINOR`
(the form used by the `python_requires` field). -/
def parseGeSpecifier (s : String) : Option (Nat × Nat) :=
  match s.data with
  | '>' :: '=' :: rest =>
    match takeUntilDot rest with
    | (a, some b) =>
      if a ≠ [] ∧ b ≠ [] ∧ (takeUntilDot b).2 = none then
        match parseNatChars a 0, parseNatChars b 0 with
        | some ma, some mi => some (ma, mi)
        | _, _ => none
      else none
    | (_, none) => none
  | _ => none

/-- Lexicographic comparison of `MAJOR.MINOR` versions: `v` is at least `w`. -/
def versionAtLeast (v w : Nat × Nat) : Bool :=
  w.1 < v.1 || (w.1 == v.1 && w.2 ≤ v.2)

/-- A Python runtime of version `v` satisfies a `>=`-style
`python_requires` specifier. -/
def satisfiesRequires (spec : String) (v : Nat × Nat) : Bool :=
  match parseGeSpecifier spec with
  | some w => versionAtLeast v w
  | none => false

/-- Model of the `setuptools_scm` `local_scheme` option: the
`"no-local-version"` scheme discards the local component (the node/date
part) that the default scheme would append. -/
def applyLocalScheme (scheme : String) (nodeAndDate : String) : String :=
  if scheme = "no-local-version" then "" else nodeAndDate

/-- Render a PEP 440 version from its public part and its (possibly
empty) local component: a non-empty local component is appended after
`+`. -/
def renderVersion (publicPart localPart : String) : String :=
  if localPart = "" then publicPart else publicPart ++ "+" ++ localPart

/-- The version `setuptools_scm` derives under a given local scheme,
from the public part and the would-be local component. -/
def scmVersion (scheme publicPart nodeAndDate : String) : String :=
  renderVersion publicPart (applyLocalScheme scheme nodeAndDate)

/-- C1: the packaging metadata declares exactly the three install-time
dependencies `beautifulsoup4`, `lxml` and `requests`, and no other
runtime dependency. -/
theorem install_requires_exact (ld : String) :
    (musicpalSetup ld).install_requires = ["beautifulsoup4", "lxml", "requests"] :=
  rfl

/-- C2: the scripts list has the single entry `"musicpal"`, equal to the
declared package name. -/
theorem scripts_single_entry_eq_name (ld : String) :
    (musicpalSetup ld).scripts = [(musicpalSetup ld).name] ∧
      (musicpalSetup ld).name = "musicpal" :=
  ⟨rfl, rfl⟩

/-- C3: the license field and the trove classifier list consistently
declare GPLv3: the license field is `"GNU GPLv3"`, the classifier list
contains the GPLv3 OSI classifier, and both strings name GPLv3. -/
theorem license_gplv3_consistent (ld : String) :
    (musicpalSetup ld).license = "GNU GPLv3" ∧
      "License :: OSI Approved :: GNU General Public License v3 (GPLv3)" ∈
        (musicpalSetup ld).classifiers ∧
      mentions (musicpalSetup ld).license "GPLv3" = true ∧
      mentions "License :: OSI Approved :: GNU General Public License v3 (GPLv3)"
        "GPLv3" = true := by
  refine ⟨rfl, ?_, ?_, by decide⟩
  · simp [musicpalSetup]
  · show mentions "GNU GPLv3" "GPLv3" = true
    decide

/-- C4: `python_requires` is `">=3.8"`, and under `>=` specifier
semantics a Python version `MAJOR.MINOR` satisfies it exactly when it is
3.8 or later (lexicographically at least `(3, 8)`). -/
theorem python_requires_ge_3_8 (ld : String) (ma mi : Nat) :
    (musicpalSetup ld).python_requires = ">=3.8" ∧
      (satisfiesRequires (musicpalSetup ld).python_requires (ma, mi) = true ↔
        (3 < ma ∨ (ma = 3 ∧ 8 ≤ mi))) := by
  refine ⟨rfl, ?_⟩
  have hparse : parseGeSpecifier ">=3.8" = some (3, 8) := by decide
  show satisfiesRequires ">=3.8" (ma, mi) = true ↔ _
  rw [satisfiesRequires, hparse]
  simp only [versionAtLeast, Bool.or_eq_true, Bool.and_eq_true, decide_eq_true_eq,
    beq_iff_eq]
  omega

/-- C5: the classifier list contains the entry
`"Operating System :: POSIX :: Linux"`. -/
theorem classifiers_posix_linux (ld : String) :
    "Operating System :: POSIX :: Linux" ∈ (musicpalSetup ld).classifiers := by
  simp [musicpalSetup]

/-- C6: the short description field equals
`"Command line interface for remote controlling a Freecom MusicPal"`. -/
theorem description_value (ld : String) :
    (musicpalSetup ld).description =
      "Command line interface for remote controlling a Freecom MusicPal" :=
  rfl

/-- C8: when opening or reading `README.md` fails, the script propagates
that error before `setup()` is invoked: the run yields exactly the read
error and no metadata is ever registered on that path. -/
theorem read_failure_before_setup (e : String) :
    runSetupScript (.error e) = .error e ∧
      ∀ args : SetupArgs, runSetupScript (.error e) ≠ .ok args := by
  exact ⟨rfl, fun args h => Except.noConfusion h⟩

/-- C9: for every content of `README.md`, the registered
`long_description` equals the file contents verbatim, and the declared
`long_description_content_type` is `"text/markdown"`. -/
theorem long_description_verbatim (contents : String) :
    runSetupScript (.ok contents) = .ok (musicpalSetup contents) ∧
      (musicpalSetup contents).long_description = contents ∧
      (musicpalSetup contents).long_description_content_type = "text/markdown" :=
  ⟨rfl, rfl, rfl⟩

/-- C10: no version is hard-coded (`setup.py` passes no `version`
keyword), the version is derived via `setuptools_scm` (declared in
`setup_requires`) with `local_scheme` set to `"no-local-version"`, and
under that scheme the derived version is the public part alone,
never carrying a local version component. -/
theorem version_from_scm_no_local (ld publicPart nodeAndDate : String) :
    (musicpalSetup ld).version = none ∧
      "setuptools_scm" ∈ (musicpalSetup ld).setup_requires ∧
      (musicpalSetup ld).use_scm_version_local_scheme = "no-local-version" ∧
      scmVersion (musicpalSetup ld).use_scm_version_local_scheme publicPart nodeAndDate
        = publicPart := by
  refine ⟨rfl, by simp [musicpalSetup], rfl, ?_⟩
  show scmVersion "no-local-version" publicPart nodeAndDate = publicPart
  rw [scmVersion, applyLocalScheme]
  simp [renderVersion]

end Musicpal
